import Mathlib

/-!
Verification of the Idolcode burnout-coaching pipeline.

The TypeScript extension sources (telemetry sensors, `CoachClient`,
`CoachPresenter`, `TestRunner`) are embedded directly from the code.
The Python backend (`backend/services/coach_core/`: scorer, state machine,
intervention selector, fusion orchestrator) is absent from the source tree;
those components are modelled from the specification, and every such
definition is marked `Modelled from the spec:` in its doc comment.
-/

namespace Idolcode

/-- The five coaching states of the state machine (spec section 4.6). -/
inductive CoachState where
  | NORMAL
  | WATCHING
  | WARNING
  | PROTECTIVE
  | RECOVERY
deriving DecidableEq

/-- The five intervention levels (spec section 4.7). -/
inductive InterventionLevel where
  | NONE
  | MONITOR
  | GENTLE
  | ACTIVE
  | URGENT
deriving DecidableEq

/-- Modelled from the spec: integer severity rank of a coaching state
(`NORMAL < WATCHING < WARNING < PROTECTIVE`).  RECOVERY is a de-escalating
state tracked separately from the severity chain; its rank is not used in
escalation comparisons. -/
def stateRank : CoachState → ℕ
  | .NORMAL => 0
  | .WATCHING => 1
  | .WARNING => 2
  | .PROTECTIVE => 3
  | .RECOVERY => 4

/-- Modelled from the spec: integer severity rank of an intervention level
(`NONE < MONITOR < GENTLE < ACTIVE < URGENT`). -/
def levelRank : InterventionLevel → ℕ
  | .NONE => 0
  | .MONITOR => 1
  | .GENTLE => 2
  | .ACTIVE => 3
  | .URGENT => 4

/-- Lower-case symbolic name of a coaching state, as the backend's
`CoachState.value` strings are recorded in the repository documentation. -/
def stateName : CoachState → String
  | .NORMAL => "normal"
  | .WATCHING => "watching"
  | .WARNING => "warning"
  | .PROTECTIVE => "protective"
  | .RECOVERY => "recovery"

/-- Upper-case state label as displayed to the user (the client compares
against upper-case labels such as `"WATCHING"`). -/
def stateLabel : CoachState → String
  | .NORMAL => "NORMAL"
  | .WATCHING => "WATCHING"
  | .WARNING => "WARNING"
  | .PROTECTIVE => "PROTECTIVE"
  | .RECOVERY => "RECOVERY"

/-- Lower-case symbolic name of an intervention level, as serialized by the
backend (`intervention_level` field of `SignalResponse`). -/
def levelName : InterventionLevel → String
  | .NONE => "none"
  | .MONITOR => "monitor"
  | .GENTLE => "gentle"
  | .ACTIVE => "active"
  | .URGENT => "urgent"

/-- The closed vocabulary of the twelve behavioral signal kinds
(spec section 4.1). -/
inductive SignalKind where
  | RAPID_WA_BURST
  | GHOST_LOSS_STREAK
  | HINT_ABUSE
  | SILENCE_AFTER_FAILURE
  | SKIP_STREAK
  | NEGATIVE_SENTIMENT
  | LONG_IDLE
  | EXCESSIVE_TAB_SWITCHES
  | SUCCESSFUL_SOLVE
  | GHOST_WIN
  | POSITIVE_SENTIMENT
  | RETURNING_AFTER_BREAK
deriving DecidableEq

/-- Name of a signal kind as it appears on the wire. -/
def signalKindName : SignalKind → String
  | .RAPID_WA_BURST => "RAPID_WA_BURST"
  | .GHOST_LOSS_STREAK => "GHOST_LOSS_STREAK"
  | .HINT_ABUSE => "HINT_ABUSE"
  | .SILENCE_AFTER_FAILURE => "SILENCE_AFTER_FAILURE"
  | .SKIP_STREAK => "SKIP_STREAK"
  | .NEGATIVE_SENTIMENT => "NEGATIVE_SENTIMENT"
  | .LONG_IDLE => "LONG_IDLE"
  | .EXCESSIVE_TAB_SWITCHES => "EXCESSIVE_TAB_SWITCHES"
  | .SUCCESSFUL_SOLVE => "SUCCESSFUL_SOLVE"
  | .GHOST_WIN => "GHOST_WIN"
  | .POSITIVE_SENTIMENT => "POSITIVE_SENTIMENT"
  | .RETURNING_AFTER_BREAK => "RETURNING_AFTER_BREAK"

/-- The valid kind names, in the order of the spec's table. -/
def validSignalKindNames : List String :=
  ["RAPID_WA_BURST", "GHOST_LOSS_STREAK", "HINT_ABUSE", "SILENCE_AFTER_FAILURE",
   "SKIP_STREAK", "NEGATIVE_SENTIMENT", "LONG_IDLE", "EXCESSIVE_TAB_SWITCHES",
   "SUCCESSFUL_SOLVE", "GHOST_WIN", "POSITIVE_SENTIMENT", "RETURNING_AFTER_BREAK"]

/-- Modelled from the spec: validation of an incoming kind string against the
closed signal vocabulary (`signals.py` is absent from the source tree).
An unrecognized kind parses to `none`. -/
def parseSignalKind (s : String) : Option SignalKind :=
  if s = "RAPID_WA_BURST" then some .RAPID_WA_BURST
  else if s = "GHOST_LOSS_STREAK" then some .GHOST_LOSS_STREAK
  else if s = "HINT_ABUSE" then some .HINT_ABUSE
  else if s = "SILENCE_AFTER_FAILURE" then some .SILENCE_AFTER_FAILURE
  else if s = "SKIP_STREAK" then some .SKIP_STREAK
  else if s = "NEGATIVE_SENTIMENT" then some .NEGATIVE_SENTIMENT
  else if s = "LONG_IDLE" then some .LONG_IDLE
  else if s = "EXCESSIVE_TAB_SWITCHES" then some .EXCESSIVE_TAB_SWITCHES
  else if s = "SUCCESSFUL_SOLVE" then some .SUCCESSFUL_SOLVE
  else if s = "GHOST_WIN" then some .GHOST_WIN
  else if s = "POSITIVE_SENTIMENT" then some .POSITIVE_SENTIMENT
  else if s = "RETURNING_AFTER_BREAK" then some .RETURNING_AFTER_BREAK
  else none

/-- Base weight of each signal kind (spec section 4.1, authoritative table). -/
def signalWeight : SignalKind → ℚ
  | .RAPID_WA_BURST => 8/10
  | .GHOST_LOSS_STREAK => 7/10
  | .HINT_ABUSE => 6/10
  | .SILENCE_AFTER_FAILURE => 6/10
  | .SKIP_STREAK => 5/10
  | .NEGATIVE_SENTIMENT => 5/10
  | .LONG_IDLE => 4/10
  | .EXCESSIVE_TAB_SWITCHES => 3/10
  | .SUCCESSFUL_SOLVE => -3/10
  | .GHOST_WIN => -2/10
  | .POSITIVE_SENTIMENT => -2/10
  | .RETURNING_AFTER_BREAK => -15/100

/-- Character comparison by code point, used to express ordinary
lexicographic string order. -/
def charLt (a b : Char) : Bool := a.toNat < b.toNat

/-- Lexicographic order on character lists. -/
def lexLt : List Char → List Char → Bool
  | [], [] => false
  | [], _ :: _ => true
  | _ :: _, [] => false
  | a :: as, b :: bs => charLt a b || (a = b && lexLt as bs)

/-- Ordinary lexicographic order on strings (what Python's `<` computes on
`CoachState.value` / `InterventionLevel.value` strings). -/
def strLexLt (s t : String) : Bool := lexLt s.data t.data

/-- ASCII upper-casing of a character. -/
def charUpper (c : Char) : Char :=
  if 97 ≤ c.toNat ∧ c.toNat ≤ 122 then Char.ofNat (c.toNat - 32) else c

/-- ASCII upper-casing of a string, embedding JavaScript's `toUpperCase`
on the level strings the extension receives. -/
def strUpper (s : String) : String := ⟨s.data.map charUpper⟩

/-- A behavioral signal as consumed by the scorer: kind, numeric value and
timestamp in seconds (spec section 3). -/
structure BehavioralSignal where
  kind : SignalKind
  value : ℚ
  timestamp : ℕ
deriving DecidableEq

/-- Scorer state: current smoothed score, retained weighted history
`(weight * value, timestamp)`, and the score-history samples
(spec sections 3 and 4.2). -/
structure ScorerState where
  score : ℚ
  history : List (ℚ × ℕ)
  scoreHistory : List (ℕ × ℚ)
deriving DecidableEq

/-- Reference smoothing factor alpha of the EMA (spec section 4.2). -/
def alphaRef : ℚ := 3/10

/-- Clamp a rational to the interval `[0, 1]`. -/
def clamp01 (x : ℚ) : ℚ := max 0 (min 1 x)

/-- Modelled from the spec: the raw decayed aggregate
`raw = sum of w_i * decay(now - t_i)` over the retained signals
(`scorer.py` is absent from the source tree).  The exponential kernel
`e^(-lambda * dt)` is abstracted as the parameter `decay`, since every
property proved here holds for an arbitrary decay function. -/
def rawAggregate (decay : ℕ → ℚ) (now : ℕ) (hist : List (ℚ × ℕ)) : ℚ :=
  (hist.map (fun p => p.1 * decay (now - p.2))).sum

/-- Modelled from the spec: `Scorer.update` — prepend the new weighted
signal, recompute the raw decayed aggregate, apply EMA smoothing against the
previous score, clamp only the final smoothed value to `[0,1]`, and append a
`(timestamp, score)` sample to the score history (spec section 4.2). -/
def scorerUpdate (decay : ℕ → ℚ) (α : ℚ) (s : ScorerState) (sig : BehavioralSignal) :
    ScorerState :=
  let hist := (signalWeight sig.kind * sig.value, sig.timestamp) :: s.history
  let raw := rawAggregate decay sig.timestamp hist
  let sc := clamp01 (α * raw + (1 - α) * s.score)
  ⟨sc, hist, (sig.timestamp, sc) :: s.scoreHistory⟩

/-- The scorer states reached after each successive signal of a sequence. -/
def scorerTrace (decay : ℕ → ℚ) (α : ℚ) : ScorerState → List BehavioralSignal → List ScorerState
  | _, [] => []
  | s, e :: es =>
    let s' := scorerUpdate decay α s e
    s' :: scorerTrace decay α s' es

/-- State of the coaching state machine: the discrete state plus the counter
of consecutive sub-threshold observations used by the PROTECTIVE → RECOVERY
hysteresis (spec section 4.6). -/
structure MachineState where
  state : CoachState
  belowCount : ℕ
deriving DecidableEq

/-- Modelled from the spec: one transition of the coaching state machine on a
new score observation (`states.py` is absent from the source tree).
Escalations fire immediately on crossing the next-higher threshold
(0.30, 0.50, 0.65); the PROTECTIVE → RECOVERY de-escalation requires three
consecutive observations below 0.40; RECOVERY falls back to NORMAL below 0.25
and re-escalates to WATCHING / WARNING if burnout re-spikes
(spec section 4.6). -/
def stepMachine (m : MachineState) (score : ℚ) : MachineState :=
  match m.state with
  | .NORMAL => if score > 3/10 then ⟨.WATCHING, 0⟩ else ⟨.NORMAL, 0⟩
  | .WATCHING => if score > 1/2 then ⟨.WARNING, 0⟩ else ⟨.WATCHING, 0⟩
  | .WARNING => if score > 13/20 then ⟨.PROTECTIVE, 0⟩ else ⟨.WARNING, 0⟩
  | .PROTECTIVE =>
    if score < 2/5 then
      if m.belowCount + 1 ≥ 3 then ⟨.RECOVERY, 0⟩ else ⟨.PROTECTIVE, m.belowCount + 1⟩
    else ⟨.PROTECTIVE, 0⟩
  | .RECOVERY =>
    if score < 1/4 then ⟨.NORMAL, 0⟩
    else if score > 1/2 then ⟨.WARNING, 0⟩
    else if score > 3/10 then ⟨.WATCHING, 0⟩
    else ⟨.RECOVERY, 0⟩

/-- Does the machine, run over the given score observations, ever enter the
RECOVERY state? -/
def reachesRecovery : MachineState → List ℚ → Bool
  | _, [] => false
  | m, q :: rest =>
    let m' := stepMachine m q
    if m'.state = CoachState.RECOVERY then true else reachesRecovery m' rest

/-- Does the score list contain three consecutive observations below the
0.40 de-escalation threshold? -/
def threeConsecBelow : List ℚ → Bool
  | a :: b :: c :: rest =>
    (decide (a < 2/5) && decide (b < 2/5) && decide (c < 2/5)) || threeConsecBelow (b :: c :: rest)
  | _ => false

/-- Are the first `k` observations of the list all below the 0.40
de-escalation threshold? -/
def firstBelow : ℕ → List ℚ → Bool
  | 0, _ => true
  | _ + 1, [] => false
  | k + 1, a :: rest => decide (a < 2/5) && firstBelow k rest

/-- Sentiment labels of the analyzer (spec section 4.3). -/
inductive SentimentLabel where
  | positive
  | negative
  | neutral
deriving DecidableEq

/-- Wire name of a sentiment label. -/
def sentimentLabelName : SentimentLabel → String
  | .positive => "positive"
  | .negative => "negative"
  | .neutral => "neutral"

/-- Parse a persisted sentiment label string. -/
def parseSentimentLabel (s : String) : Option SentimentLabel :=
  if s = "positive" then some .positive
  else if s = "negative" then some .negative
  else if s = "neutral" then some .neutral
  else none

/-- A sentiment analysis result; `raw_text` must always be retained
(spec section 3). -/
structure SentimentResult where
  label : SentimentLabel
  confidence : ℚ
  raw_text : String
deriving DecidableEq

/-- Alignment labels of the behavior-versus-sentiment classifier
(spec section 4.4). -/
inductive AlignmentLabel where
  | GENUINE_GOOD
  | VENTING_OK
  | MASKING
  | SILENT_DISENGAGE
  | CONFIRMED_BURNOUT
deriving DecidableEq

/-- Modelled from the spec: the alignment truth table of section 4.4
(the alignment classifier of `fusion.py` is absent from the source tree).
`highBurnout` is the thresholded burnout level (high iff score >= 0.5). -/
def classifyAlignment (highBurnout : Bool) : SentimentLabel → AlignmentLabel
  | .positive => if highBurnout then .MASKING else .GENUINE_GOOD
  | .neutral => if highBurnout then .SILENT_DISENGAGE else .GENUINE_GOOD
  | .negative => if highBurnout then .CONFIRMED_BURNOUT else .VENTING_OK

/-- The per-user session persisted by the coach core (spec section 3).
`below_count` carries the PROTECTIVE → RECOVERY hysteresis counter together
with the canonical `current_state` field. -/
structure CoachSession where
  user_handle : String
  burnout_score : ℚ
  current_state : CoachState
  below_count : ℕ
  signal_history : List (ℚ × ℕ)
  sentiment_history : List SentimentResult
  score_history : List (ℕ × ℚ)
  metrics : List (String × ℚ)
  failures_since_last_message : ℕ
  message_count_session : ℕ
  last_intervention_at : List (CoachState × ℕ)
  last_updated : ℕ
deriving DecidableEq

/-- A fresh session at creation defaults (state NORMAL, score 0). -/
def freshSession (handle : String) : CoachSession :=
  ⟨handle, 0, .NORMAL, 0, [], [], [], [], 0, 0, [], 0⟩

/-- Greater of two intervention levels by severity rank. -/
def levelMax (a b : InterventionLevel) : InterventionLevel :=
  if levelRank a < levelRank b then b else a

/-- Escalate an intervention level by one step of the severity order. -/
def escalateOne : InterventionLevel → InterventionLevel
  | .NONE => .MONITOR
  | .MONITOR => .GENTLE
  | .GENTLE => .ACTIVE
  | .ACTIVE => .URGENT
  | .URGENT => .URGENT

/-- Modelled from the spec: baseline state-to-level mapping of section 4.7 —
NORMAL to NONE, WATCHING to MONITOR, WARNING to GENTLE or ACTIVE (ACTIVE if
score > 0.6), PROTECTIVE to ACTIVE or URGENT (URGENT if MASKING is flagged or
score > 0.8), RECOVERY to GENTLE (`responses.py` is absent from the source
tree). -/
def baselineLevel (state : CoachState) (score : ℚ) (alignment : AlignmentLabel) :
    InterventionLevel :=
  match state with
  | .NORMAL => .NONE
  | .WATCHING => .MONITOR
  | .WARNING => if score > 3/5 then .ACTIVE else .GENTLE
  | .PROTECTIVE => if alignment = .MASKING ∨ score > 4/5 then .URGENT else .ACTIVE
  | .RECOVERY => .GENTLE

/-- Modelled from the spec: the intervention level computed by the selector —
the baseline mapping, escalated one level when the failure streak has reached
three, with MASKING always forced to at least ACTIVE (spec sections 4.7 and
4.4). -/
def computeLevel (state : CoachState) (score : ℚ) (alignment : AlignmentLabel)
    (failureStreak : ℕ) : InterventionLevel :=
  let l0 := baselineLevel state score alignment
  let l1 := if 3 ≤ failureStreak then escalateOne l0 else l0
  if alignment = .MASKING then levelMax l1 .ACTIVE else l1

/-- Modelled from the spec: per-level cooldown durations in seconds —
MONITOR ten minutes, GENTLE five minutes, ACTIVE two minutes, URGENT always
fires (spec section 4.7). -/
def cooldownSeconds : InterventionLevel → ℕ
  | .NONE => 0
  | .MONITOR => 600
  | .GENTLE => 300
  | .ACTIVE => 120
  | .URGENT => 0

/-- Most recent cooldown timestamp recorded for a state. -/
def lookupLastAt : List (CoachState × ℕ) → CoachState → Option ℕ
  | [], _ => none
  | (s, t) :: rest, st => if s = st then some t else lookupLastAt rest st

/-- Modelled from the spec: may a message be emitted now?  NONE emits no
message, URGENT always fires, and the other levels honor their cooldown
interval since the last message in this state (spec section 4.7). -/
def messageAllowed (level : InterventionLevel) (lastAt : Option ℕ) (now : ℕ) : Bool :=
  match level with
  | .NONE => false
  | .URGENT => true
  | l =>
    match lastAt with
    | none => true
    | some t => decide (t + cooldownSeconds l ≤ now)

/-- Modelled from the spec: a template-bank message keyed by state and
alignment, always a concrete nonempty string (spec section 4.7). -/
def templateMessage (state : CoachState) (alignment : AlignmentLabel) : String :=
  match state, alignment with
  | .PROTECTIVE, .MASKING => "You say you are fine, but the numbers disagree. Step away for a bit."
  | .PROTECTIVE, _ => "Time for a real break. The problems will still be here."
  | .WARNING, _ => "You have been grinding hard. Consider a short pause."
  | .WATCHING, _ => "Keeping an eye on your pace."
  | .RECOVERY, _ => "Nice recovery. Ease back in gently."
  | _, _ => "Keep going, you are doing fine."

/-- Result of an intervention selection: the level, and the message or its
deliberate cooldown-suppressed absence (spec section 4.7). -/
structure SelectResult where
  level : InterventionLevel
  message : Option String
deriving DecidableEq

/-- Modelled from the spec: `select(session, state, score, alignment)` — the
level is always computed and returned; the message is emitted only when the
per-state cooldown permits, in which case the cooldown timestamp is recorded;
a suppressed message is a valid, expected outcome, not an error.  The failure
streak counter is maintained by the orchestrator and only read here
(spec section 4.7). -/
def select (session : CoachSession) (state : CoachState) (score : ℚ)
    (alignment : AlignmentLabel) (now : ℕ) : SelectResult × CoachSession :=
  let level := computeLevel state score alignment session.failures_since_last_message
  if messageAllowed level (lookupLastAt session.last_intervention_at state) now then
    (⟨level, some (templateMessage state alignment)⟩,
     { session with
         last_intervention_at := (state, now) :: session.last_intervention_at,
         message_count_session := session.message_count_session + 1 })
  else
    (⟨level, none⟩, session)

/-- Structured result of one processed event (spec section 6). -/
structure ProcessResult where
  score : ℚ
  state : CoachState
  level : InterventionLevel
  message : Option String
deriving DecidableEq

/-- Errors surfaced to the caller (spec section 7). -/
inductive CoachError where
  | InvalidSignalKind (kind : String)
  | MalformedSession (why : String)
deriving DecidableEq

/-- Label of the most recent stored sentiment, `neutral` when none. -/
def latestSentimentLabel (session : CoachSession) : SentimentLabel :=
  match session.sentiment_history with
  | [] => .neutral
  | r :: _ => r.label

/-- Modelled from the spec: the per-event orchestrator pipeline
`process_signal` of sections 4.8 and 6 (`fusion.py` is absent from the source
tree) — validate the kind against the closed vocabulary up front, rejecting
an unknown kind with `InvalidSignalKind` before any session mutation, then
score, classify alignment, drive the state machine, select the intervention,
and return the atomically updated session together with the result. -/
def process_signal (decay : ℕ → ℚ) (session : CoachSession) (kind : String)
    (value : ℚ) (now : ℕ) : Except CoachError (CoachSession × ProcessResult) :=
  match parseSignalKind kind with
  | none => .error (.InvalidSignalKind kind)
  | some k =>
    let scorer0 : ScorerState := ⟨session.burnout_score, session.signal_history, session.score_history⟩
    let scorer1 := scorerUpdate decay alphaRef scorer0 ⟨k, value, now⟩
    let high := decide (1/2 ≤ scorer1.score)
    let alignment := classifyAlignment high (latestSentimentLabel session)
    let m1 := stepMachine ⟨session.current_state, session.below_count⟩ scorer1.score
    let session1 :=
      { session with
          burnout_score := scorer1.score,
          signal_history := scorer1.history,
          score_history := scorer1.scoreHistory,
          current_state := m1.state,
          below_count := m1.belowCount,
          last_updated := now }
    let sel := select session1 m1.state scorer1.score alignment now
    .ok (sel.2, ⟨scorer1.score, m1.state, sel.1.level, sel.1.message⟩)

/-- Persisted shape of a stored sentiment result; `raw_text` is optional in
the raw persisted document and must be validated on hydration
(spec sections 3 and 7). -/
structure PersistedSentiment where
  label : String
  confidence : ℚ
  raw_text : Option String
deriving DecidableEq

/-- Persisted shape of a coach session, mirroring the `coach_sessions`
document of the store (spec sections 3 and 6). -/
structure PersistedSession where
  user_handle : String
  burnout_score : ℚ
  current_state : String
  below_count : ℕ
  recent_signals : List (ℚ × ℕ)
  recent_sentiments : List PersistedSentiment
  score_history : List (ℕ × ℚ)
  metrics : List (String × ℚ)
  failures_since_last_message : ℕ
  message_count_session : ℕ
  last_intervention_at : List (String × ℕ)
  last_updated : ℕ
deriving DecidableEq

/-- Parse a persisted state string back into the state enum. -/
def parseState (s : String) : Option CoachState :=
  if s = "normal" then some .NORMAL
  else if s = "watching" then some .WATCHING
  else if s = "warning" then some .WARNING
  else if s = "protective" then some .PROTECTIVE
  else if s = "recovery" then some .RECOVERY
  else none

/-- Serialize one sentiment result, always retaining `raw_text`
(spec section 3). -/
def serializeSentiment (r : SentimentResult) : PersistedSentiment :=
  ⟨sentimentLabelName r.label, r.confidence, some r.raw_text⟩

/-- Modelled from the spec: serialize a live session to the persisted shape
(the persistence glue of `fusion.py` / `server.py` is absent from the source
tree). -/
def serializeSession (s : CoachSession) : PersistedSession :=
  ⟨s.user_handle, s.burnout_score, stateName s.current_state, s.below_count,
   s.signal_history, s.sentiment_history.map serializeSentiment, s.score_history,
   s.metrics, s.failures_since_last_message, s.message_count_session,
   s.last_intervention_at.map (fun p => (stateName p.1, p.2)), s.last_updated⟩

/-- Hydrate one stored sentiment; a missing `raw_text` or an unknown label is
a `MalformedSession` error, never a silently defaulted object
(spec section 7). -/
def hydrateSentiment (p : PersistedSentiment) : Except CoachError SentimentResult :=
  match parseSentimentLabel p.label, p.raw_text with
  | some l, some t => .ok ⟨l, p.confidence, t⟩
  | none, _ => .error (.MalformedSession "unknown sentiment label")
  | _, none => .error (.MalformedSession "missing raw_text")

/-- Hydrate the stored sentiment list, failing loudly on the first malformed
entry. -/
def hydrateSentiments : List PersistedSentiment → Except CoachError (List SentimentResult)
  | [] => .ok []
  | p :: rest =>
    match hydrateSentiment p with
    | .error e => .error e
    | .ok r =>
      match hydrateSentiments rest with
      | .error e => .error e
      | .ok rs => .ok (r :: rs)

/-- Hydrate the per-state cooldown timestamp map. -/
def hydrateCooldowns : List (String × ℕ) → Except CoachError (List (CoachState × ℕ))
  | [] => .ok []
  | (s, t) :: rest =>
    match parseState s with
    | none => .error (.MalformedSession "unknown state in cooldown map")
    | some st =>
      match hydrateCooldowns rest with
      | .error e => .error e
      | .ok m => .ok ((st, t) :: m)

/-- Modelled from the spec: hydration of a persisted session into live
objects (section 4.8) — the state string is validated against the enum and
written to the one canonical `current_state` field that the state machine
reads; every stored sentiment is reconstructed with its required `raw_text`;
any inconsistency is rejected as `MalformedSession` instead of proceeding
with a partially-built session that silently reverts to defaults. -/
def hydrateSession (p : PersistedSession) : Except CoachError CoachSession :=
  match parseState p.current_state with
  | none => .error (.MalformedSession "state value outside the defined enum")
  | some st =>
    match hydrateSentiments p.recent_sentiments with
    | .error e => .error e
    | .ok sents =>
      match hydrateCooldowns p.last_intervention_at with
      | .error e => .error e
      | .ok cds =>
        .ok ⟨p.user_handle, p.burnout_score, st, p.below_count, p.recent_signals,
             sents, p.score_history, p.metrics, p.failures_since_last_message,
             p.message_count_session, cds, p.last_updated⟩

/-- Client-side state inference of `CoachClient.sendChat` / `sendVoice`
(src/unnamed/part_007, lines 230-234 and 280-283): starting from `"NORMAL"`,
report `"PROTECTIVE"` when the returned burnout score exceeds 0.7, otherwise
`"WATCHING"` when it exceeds 0.4. -/
def inferStateFromScore (score : ℚ) : String :=
  if score > 7/10 then "PROTECTIVE"
  else if score > 2/5 then "WATCHING"
  else "NORMAL"

/-- Intervention gate of `CoachClient.sendSignal` (src/unnamed/part_007,
line 198): the presenter is invoked when the response flags attention or the
level string equals `"active"` or `"urgent"`. -/
def shouldTriggerIntervention (needsAttention : Bool) (levelStr : String) : Bool :=
  needsAttention || levelStr = "active" || levelStr = "urgent"

/-- The visible effect of one presenter invocation. -/
inductive UIAction where
  | noAction
  | infoToast (msg : String)
  | warningToastWithGhost (msg : String)
  | modalWithGhost (msg : String)
deriving DecidableEq

/-- `CoachPresenter.handleIntervention` (src/extension/src/utils/
CoachPresenter.ts, lines 28-56): an absent (or empty) message returns at once
with no UI action; otherwise the upper-cased level selects silence, an info
toast, a warning toast with ghost text, or a modal with ghost text; an
unrecognized level falls through the switch with no action. -/
def handleIntervention (level : String) (message : Option String) : UIAction :=
  match message with
  | none => .noAction
  | some m =>
    if m = "" then .noAction
    else
      match strUpper level with
      | "NONE" => .noAction
      | "MONITOR" => .noAction
      | "GENTLE" => .infoToast m
      | "ACTIVE" => .warningToastWithGhost m
      | "URGENT" => .modalWithGhost m
      | _ => .noAction

/-- Idle timeout of `resetIdleTimer` (src/extension/src/extension.ts,
line 119): 120000 milliseconds, i.e. two minutes of no typing. -/
def idleTimerDelayMs : ℕ := 120000

/-- Signal kind string sent by the idle sensor (src/extension/src/
extension.ts, line 114). -/
def idleSignalKind : String := "idle_detected"

/-- Whether an uninterrupted typing-inactivity period of `idleMs`
milliseconds makes the idle timer of `resetIdleTimer` fire: the timeout is
rescheduled on every keystroke, so it fires exactly when the inactivity
reaches `idleTimerDelayMs`. -/
def idleSignalFires (idleMs : ℕ) : Bool := idleTimerDelayMs ≤ idleMs

/-- Value carried by the idle signal: whole idle minutes
(src/extension/src/extension.ts, line 113). -/
def idleSignalValue (idleMs : ℕ) : ℕ := idleMs / 60000

/-- A coach signal as sent by the extension: wire kind string and numeric
value. -/
structure CoachSignal where
  kind : String
  value : ℚ
deriving DecidableEq

/-- Coach integration of `TestRunner.runAllTests` (src/extension/src/
storage.ts, lines 214-248): from the current consecutive-failure counter and
the per-test pass flags, compute the new counter and the single signal sent —
on an all-pass run the counter resets to 0 and `run_success` value 1 is sent;
otherwise the counter increments and either `repeated_failure` carrying the
streak (when the streak has reached 3) or `run_failure` value 1 is sent. -/
def runAllTestsCoach (consecutiveFailures : ℕ) (passed : List Bool) : ℕ × CoachSignal :=
  let allPassed := passed.all (fun b => b)
  if allPassed then
    (0, ⟨"run_success", 1⟩)
  else
    let c := consecutiveFailures + 1
    if 3 ≤ c then (c, ⟨"repeated_failure", (c : ℚ)⟩)
    else (c, ⟨"run_failure", 1⟩)

/-- Modelled from the spec: trigger-reason classification of a transition,
comparing states by their integer severity rank, never by their symbolic
names (spec section 4.6; `states.py` is absent from the source tree). -/
def triggerReasonOf (old new : CoachState) : String :=
  if stateRank old < stateRank new then "escalation"
  else if stateRank new < stateRank old then "deescalation"
  else "steady"

/-- A concrete populated session used to exercise the definitions. -/
def sessionExample : CoachSession :=
  ⟨"alice", 72/100, .PROTECTIVE, 1, [(8/10, 5)], [⟨.positive, 9/10, "i am fine"⟩],
   [(5, 72/100)], [("frustration", 1/2)], 2, 1, [(.PROTECTIVE, 3)], 5⟩

/-! ## Helper lemmas -/

theorem clamp01_nonneg (x : ℚ) : 0 ≤ clamp01 x := le_max_left 0 _

theorem clamp01_le_one (x : ℚ) : clamp01 x ≤ 1 :=
  max_le (by norm_num) (min_le_left 1 x)

theorem levelRank_levelMax_right (a b : InterventionLevel) :
    levelRank b ≤ levelRank (levelMax a b) := by
  unfold levelMax
  split
  · exact le_refl _
  · omega

theorem select_level (session : CoachSession) (state : CoachState) (score : ℚ)
    (alignment : AlignmentLabel) (now : ℕ) :
    (select session state score alignment now).1.level
      = computeLevel state score alignment session.failures_since_last_message := by
  simp only [select]
  split <;> rfl

theorem select_failures_unchanged (session : CoachSession) (state : CoachState)
    (score : ℚ) (alignment : AlignmentLabel) (now : ℕ) :
    (select session state score alignment now).2.failures_since_last_message
      = session.failures_since_last_message := by
  simp only [select]
  split <;> rfl

theorem messageAllowed_within_cooldown (l : InterventionLevel) (t1 t2 : ℕ)
    (h0 : 0 < cooldownSeconds l) (h2 : t2 < t1 + cooldownSeconds l) :
    messageAllowed l (some t1) t2 = false := by
  cases l
  case NONE => simp [cooldownSeconds] at h0
  case URGENT => simp [cooldownSeconds] at h0
  all_goals
    refine decide_eq_false ?_
    simp only [cooldownSeconds] at h2 ⊢
    omega

theorem select_emitted (session : CoachSession) (state : CoachState) (score : ℚ)
    (alignment : AlignmentLabel) (now : ℕ)
    (h : messageAllowed
          (computeLevel state score alignment session.failures_since_last_message)
          (lookupLastAt session.last_intervention_at state) now = true) :
    (select session state score alignment now).1.message
        = some (templateMessage state alignment) ∧
    (select session state score alignment now).2.last_intervention_at
        = (state, now) :: session.last_intervention_at := by
  simp only [select]
  rw [if_pos h]
  exact ⟨rfl, rfl⟩

theorem select_suppressed (session : CoachSession) (state : CoachState) (score : ℚ)
    (alignment : AlignmentLabel) (now : ℕ)
    (h : messageAllowed
          (computeLevel state score alignment session.failures_since_last_message)
          (lookupLastAt session.last_intervention_at state) now = false) :
    (select session state score alignment now).1.message = none ∧
    (select session state score alignment now).2 = session := by
  simp only [select]
  rw [if_neg (by simp [h])]
  exact ⟨rfl, rfl⟩

theorem threeConsecBelow_cons (q : ℚ) (l : List ℚ) (h : threeConsecBelow l = true) :
    threeConsecBelow (q :: l) = true := by
  cases l with
  | nil => simp [threeConsecBelow] at h
  | cons a l1 =>
    cases l1 with
    | nil => simp [threeConsecBelow] at h
    | cons b l2 => simp [threeConsecBelow, h]

theorem firstBelow_three (l : List ℚ) (h : firstBelow 3 l = true) :
    threeConsecBelow l = true := by
  match l with
  | [] => simp [firstBelow] at h
  | [a] => simp [firstBelow] at h
  | [a, b] => simp [firstBelow] at h
  | a :: b :: c :: rest =>
    simp only [firstBelow, Bool.and_eq_true, decide_eq_true_eq] at h
    simp only [threeConsecBelow, Bool.or_eq_true, Bool.and_eq_true, decide_eq_true_eq]
    tauto

/-- Entering RECOVERY requires either starting there, or completing the
current PROTECTIVE sub-threshold streak, or a fresh run of three consecutive
sub-threshold observations. -/
theorem recovery_entry_requires_streak (scores : List ℚ) :
    ∀ m : MachineState, reachesRecovery m scores = true →
      m.state = .RECOVERY ∨
      (m.state = .PROTECTIVE ∧ firstBelow (3 - m.belowCount) scores = true) ∨
      threeConsecBelow scores = true := by
  induction scores with
  | nil => intro m h; simp [reachesRecovery] at h
  | cons q rest ih =>
    intro m h
    have key : ∀ m' : MachineState, reachesRecovery m' rest = true →
        m'.state ≠ .RECOVERY → (m'.state = .PROTECTIVE → m'.belowCount = 0) →
        threeConsecBelow (q :: rest) = true := by
      intro m' hr hnr hb
      rcases ih m' hr with h1 | ⟨h2, h3⟩ | h4
      · exact absurd h1 hnr
      · rw [hb h2] at h3
        exact threeConsecBelow_cons q rest (firstBelow_three rest h3)
      · exact threeConsecBelow_cons q rest h4
    obtain ⟨ms, bc⟩ := m
    simp only [reachesRecovery] at h
    cases ms with
    | NORMAL =>
      refine Or.inr (Or.inr ?_)
      by_cases hq : q > 3/10
      · rw [stepMachine] at h
        simp only [if_pos hq] at h
        simp only [reduceCtorEq, if_false] at h
        exact key ⟨.WATCHING, 0⟩ h (by simp) (by simp)
      · rw [stepMachine] at h
        simp only [if_neg hq] at h
        simp only [reduceCtorEq, if_false] at h
        exact key ⟨.NORMAL, 0⟩ h (by simp) (by simp)
    | WATCHING =>
      refine Or.inr (Or.inr ?_)
      by_cases hq : q > 1/2
      · rw [stepMachine] at h
        simp only [if_pos hq] at h
        simp only [reduceCtorEq, if_false] at h
        exact key ⟨.WARNING, 0⟩ h (by simp) (by simp)
      · rw [stepMachine] at h
        simp only [if_neg hq] at h
        simp only [reduceCtorEq, if_false] at h
        exact key ⟨.WATCHING, 0⟩ h (by simp) (by simp)
    | WARNING =>
      refine Or.inr (Or.inr ?_)
      by_cases hq : q > 13/20
      · rw [stepMachine] at h
        simp only [if_pos hq] at h
        simp only [reduceCtorEq, if_false] at h
        exact key ⟨.PROTECTIVE, 0⟩ h (by simp) (fun _ => rfl)
      · rw [stepMachine] at h
        simp only [if_neg hq] at h
        simp only [reduceCtorEq, if_false] at h
        exact key ⟨.WARNING, 0⟩ h (by simp) (by simp)
    | RECOVERY => exact Or.inl rfl
    | PROTECTIVE =>
      by_cases hq : q < 2/5
      · by_cases hc : 3 ≤ bc + 1
        · refine Or.inr (Or.inl ⟨rfl, ?_⟩)
          have h30 : 3 - bc = 0 ∨ 3 - bc = 1 := by omega
          rcases h30 with h30 | h30 <;> rw [h30]
          · rfl
          · simp [firstBelow, hq]
        · rw [stepMachine] at h
          simp only [if_pos hq, if_neg hc] at h
          simp only [reduceCtorEq, if_false] at h
          rcases ih ⟨.PROTECTIVE, bc + 1⟩ h with h1 | ⟨_, h3⟩ | h4
          · exact absurd h1 (by simp)
          · refine Or.inr (Or.inl ⟨rfl, ?_⟩)
            have h3x : firstBelow (2 - bc) rest = true := by
              have he : 3 - (bc + 1) = 2 - bc := by omega
              exact he ▸ (h3 : firstBelow (3 - (bc + 1)) rest = true)
            have hk : 3 - bc = (2 - bc) + 1 := by omega
            rw [hk]
            simp [firstBelow, hq, h3x]
          · exact Or.inr (Or.inr (threeConsecBelow_cons q rest h4))
      · refine Or.inr (Or.inr ?_)
        rw [stepMachine] at h
        simp only [if_neg hq] at h
        simp only [reduceCtorEq, if_false] at h
        exact key ⟨.PROTECTIVE, 0⟩ h (by simp) (fun _ => rfl)

/-! ## Claim theorems -/

/-- C10: in `TestRunner.runAllTests`, after a run in which every test passes
the consecutive-failure counter resets to 0 and the single signal sent is
`run_success` with value 1; after a run with at least one failing test the
counter increments, and the single signal is `repeated_failure` carrying the
current streak exactly when the streak has reached 3, otherwise `run_failure`
with value 1. -/
theorem testRunner_coach_signals (c : ℕ) (rs : List Bool) :
    (rs.all (fun b => b) = true →
      runAllTestsCoach c rs = (0, ⟨"run_success", 1⟩)) ∧
    (rs.all (fun b => b) = false →
      (runAllTestsCoach c rs).1 = c + 1 ∧
      (3 ≤ c + 1 → (runAllTestsCoach c rs).2 = ⟨"repeated_failure", ((c + 1 : ℕ) : ℚ)⟩) ∧
      (c + 1 < 3 → (runAllTestsCoach c rs).2 = ⟨"run_failure", 1⟩)) := by
  refine ⟨fun h => by simp [runAllTestsCoach, h], fun h => ?_⟩
  refine ⟨by simp [runAllTestsCoach, h]; split <;> rfl, fun h3 => ?_, fun h3 => ?_⟩
  · simp [runAllTestsCoach, h, h3]
  · have : ¬ 3 ≤ c + 1 := by omega
    simp [runAllTestsCoach, h, this]

/-- Witness for C10 at concrete runs: an all-pass run, a third consecutive
failure, and a first failure. -/
theorem testRunner_coach_signals_witness :
    runAllTestsCoach 5 [true, true] = (0, ⟨"run_success", 1⟩) ∧
    (runAllTestsCoach 2 [false, true]).2 = ⟨"repeated_failure", ((3 : ℕ) : ℚ)⟩ ∧
    (runAllTestsCoach 0 [false]).2 = ⟨"run_failure", 1⟩ :=
  ⟨(testRunner_coach_signals 5 [true, true]).1 (by decide),
   ((testRunner_coach_signals 2 [false, true]).2 (by decide)).2.1 (by norm_num),
   ((testRunner_coach_signals 0 [false]).2 (by decide)).2.2 (by norm_num)⟩

/-- C9 counterexample: the idle sensor of `resetIdleTimer` fires after
120000 ms (2 minutes) of no typing, a period strictly shorter than the
15 minutes (900000 ms) the claim requires, and the kind it sends is
`idle_detected`, which is not the LONG_IDLE vocabulary kind. -/
theorem idle_fifteen_minutes_counterexample :
    idleSignalFires 120000 = true ∧ (120000 : ℕ) < 900000 ∧
    idleSignalKind = "idle_detected" ∧ parseSignalKind idleSignalKind = none := by
  refine ⟨rfl, by norm_num, rfl, rfl⟩

/-- C9 (amended): the extension's idle sensor emits a signal of kind
`idle_detected`, valued in whole idle minutes, exactly when typing inactivity
reaches 2 minutes (120000 ms) — not 15 minutes; no idle signal is emitted for
shorter inactivity.  The emitted kind is outside the backend's closed signal
vocabulary; LONG_IDLE (+0.4, meaning at least 15 idle minutes) is a backend
vocabulary entry the sensor does not use. -/
theorem idle_signal_two_minutes :
    (∀ d : ℕ, idleSignalFires d = true ↔ 120000 ≤ d) ∧
    idleSignalKind = "idle_detected" ∧
    parseSignalKind idleSignalKind = none ∧
    signalWeight .LONG_IDLE = 4/10 ∧
    (∀ d : ℕ, idleSignalValue d = d / 60000) := by
  refine ⟨fun d => ?_, rfl, rfl, rfl, fun d => rfl⟩
  simp [idleSignalFires, idleTimerDelayMs]

/-- Witness for C9 at the concrete firing threshold. -/
theorem idle_signal_two_minutes_witness : idleSignalFires 120000 = true :=
  (idle_signal_two_minutes.1 120000).mpr (by norm_num)

/-- C1 counterexample: at score 0.6 the threshold rules move a WATCHING
session to WARNING, yet the client-side inference of `sendChat` / `sendVoice`
reports `"WATCHING"` for the same score — the state reported to the user is
not consistent with the authoritative thresholds. -/
theorem state_thresholds_counterexample :
    (stepMachine ⟨.WATCHING, 0⟩ (6/10)).state = .WARNING ∧
    inferStateFromScore (6/10) = "WATCHING" ∧
    stateLabel .WARNING ≠ "WATCHING" := by
  refine ⟨by norm_num [stepMachine], by norm_num [inferStateFromScore], by decide⟩

/-- C1 (amended): the coaching state machine escalates exactly at the
authoritative thresholds (NORMAL to WATCHING above 0.30, WATCHING to WARNING
above 0.50, WARNING to PROTECTIVE above 0.65), and WARNING sits strictly
between WATCHING and PROTECTIVE in severity; but the client-side inference of
`sendChat` / `sendVoice` maps scores with its own 0.4 / 0.7 cutoffs — it
agrees at 0.45 (`"WATCHING"`) while never reporting `"WARNING"` at any
score. -/
theorem state_thresholds_and_client_inference :
    (∀ (q : ℚ) (n : ℕ),
      ((stepMachine ⟨.NORMAL, n⟩ q).state = .WATCHING ↔ q > 3/10) ∧
      ((stepMachine ⟨.WATCHING, n⟩ q).state = .WARNING ↔ q > 1/2) ∧
      ((stepMachine ⟨.WARNING, n⟩ q).state = .PROTECTIVE ↔ q > 13/20)) ∧
    inferStateFromScore (45/100) = "WATCHING" ∧
    (∀ q : ℚ, inferStateFromScore q ≠ "WARNING") ∧
    (∀ q : ℚ, inferStateFromScore q = "PROTECTIVE" ↔ q > 7/10) ∧
    stateRank .WATCHING < stateRank .WARNING ∧
    stateRank .WARNING < stateRank .PROTECTIVE := by
  refine ⟨fun q n => ⟨?_, ?_, ?_⟩, by norm_num [inferStateFromScore], fun q => ?_,
    fun q => ?_, by decide, by decide⟩
  · by_cases h : q > 3/10
    · simp only [stepMachine]; rw [if_pos h]; simpa using h
    · simp only [stepMachine]; rw [if_neg h]; simpa using h
  · by_cases h : q > 1/2
    · simp only [stepMachine]; rw [if_pos h]; simpa using h
    · simp only [stepMachine]; rw [if_neg h]; simpa using h
  · by_cases h : q > 13/20
    · simp only [stepMachine]; rw [if_pos h]; simpa using h
    · simp only [stepMachine]; rw [if_neg h]; simpa using h
  · unfold inferStateFromScore
    split_ifs <;> decide
  · unfold inferStateFromScore
    split_ifs with h1 h2
    · simp [h1]
    · simp [h1]
    · simp [h1]

/-- Witness for C1 at concrete scores: 0.45 escalates NORMAL to WATCHING and
the client inference never reports WARNING, shown at score 0.6. -/
theorem state_thresholds_witness :
    (stepMachine ⟨.NORMAL, 0⟩ (45/100)).state = .WATCHING ∧
    inferStateFromScore (6/10) ≠ "WARNING" :=
  ⟨(state_thresholds_and_client_inference.1 (45/100) 0).1.mpr (by norm_num),
   state_thresholds_and_client_inference.2.2.1 (6/10)⟩

/-- C2: a `process_signal` call whose kind is outside the closed twelve-kind
vocabulary fails with `InvalidSignalKind`, producing no updated session (the
error branch returns before any pipeline stage, so the caller's session is
untouched); every vocabulary kind round-trips through validation; and none of
the five kinds the editor sensors actually send belongs to the vocabulary. -/
theorem invalid_kind_rejected (decay : ℕ → ℚ) (s : CoachSession) (v : ℚ) (t : ℕ)
    (k : String) :
    (k ∉ validSignalKindNames →
      parseSignalKind k = none ∧
      process_signal decay s k v t = .error (.InvalidSignalKind k)) ∧
    (∀ kd : SignalKind, signalKindName kd ∈ validSignalKindNames ∧
      parseSignalKind (signalKindName kd) = some kd) ∧
    ("frustration_detected" ∉ validSignalKindNames ∧
     "idle_detected" ∉ validSignalKindNames ∧
     "run_success" ∉ validSignalKindNames ∧
     "run_failure" ∉ validSignalKindNames ∧
     "repeated_failure" ∉ validSignalKindNames) := by
  refine ⟨fun hk => ?_, fun kd => by cases kd <;> exact ⟨by decide, rfl⟩, by decide⟩
  simp only [validSignalKindNames, List.mem_cons, List.not_mem_nil, or_false] at hk
  push_neg at hk
  obtain ⟨h1, h2, h3, h4, h5, h6, h7, h8, h9, h10, h11, h12⟩ := hk
  have hp : parseSignalKind k = none := by
    simp [parseSignalKind, h1, h2, h3, h4, h5, h6, h7, h8, h9, h10, h11, h12]
  exact ⟨hp, by simp [process_signal, hp]⟩

/-- Witness for C2: the frustration sensor's kind is rejected with
`InvalidSignalKind` on a fresh session. -/
theorem invalid_kind_rejected_witness :
    process_signal (fun _ => 1) (freshSession "alice") "frustration_detected" 52 0
      = .error (.InvalidSignalKind "frustration_detected") :=
  ((invalid_kind_rejected (fun _ => 1) (freshSession "alice") 52 0
      "frustration_detected").1 (by decide)).2

/-- C8: serializing a `CoachSession` to the persisted shape and hydrating it
back succeeds and reproduces the session exactly — in particular
`current_state` (written to the one canonical field the state machine reads),
`burnout_score`, and the `raw_text` of every stored `SentimentResult` are
identical to their pre-serialization values; hydration never falls through to
a partially-built session. -/
theorem session_roundtrip (s : CoachSession) :
    hydrateSession (serializeSession s) = Except.ok s := by
  have hstate : ∀ st : CoachState, parseState (stateName st) = some st := by
    intro st; cases st <;> rfl
  have hsent : ∀ l : List SentimentResult,
      hydrateSentiments (l.map serializeSentiment) = .ok l := by
    intro l
    induction l with
    | nil => rfl
    | cons r rs ihr =>
      have hone : hydrateSentiment (serializeSentiment r) = .ok r := by
        obtain ⟨lab, conf, txt⟩ := r
        cases lab <;> rfl
      simp [hydrateSentiments, hone, ihr]
  have hcool : ∀ m : List (CoachState × ℕ),
      hydrateCooldowns (m.map fun p => (stateName p.1, p.2)) = .ok m := by
    intro m
    induction m with
    | nil => rfl
    | cons p ps ihp =>
      obtain ⟨st, t⟩ := p
      simp [hydrateCooldowns, hstate, ihp]
  obtain ⟨uh, bs, cs, bcnt, sh, sent, sch, mets, f, mc, li, lu⟩ := s
  simp [hydrateSession, serializeSession, hstate, hsent, hcool]

/-- C3: along any sequence of signals processed through `Scorer.update` —
for any decay kernel and smoothing factor — the smoothed score lies in
`[0, 1]` after every step, because only the final smoothed value is clamped;
the intermediate raw decayed aggregate may exceed 1, as at two simultaneous
RAPID_WA_BURST signals where the raw aggregate is 8/5 while the updated
smoothed score is still within bounds. -/
theorem score_bounds :
    (∀ (decay : ℕ → ℚ) (α : ℚ) (s0 : ScorerState) (sigs : List BehavioralSignal)
       (st : ScorerState), st ∈ scorerTrace decay α s0 sigs →
       0 ≤ st.score ∧ st.score ≤ 1) ∧
    (rawAggregate (fun _ => 1) 0 [(8/10, 0), (8/10, 0)] = 8/5 ∧ (1 : ℚ) < 8/5 ∧
     (scorerUpdate (fun _ => 1) alphaRef ⟨1, [(8/10, 0)], []⟩ ⟨.RAPID_WA_BURST, 1, 0⟩).score = 1) := by
  refine ⟨fun decay α s0 sigs => ?_, by norm_num [rawAggregate], by norm_num,
    by norm_num [scorerUpdate, rawAggregate, signalWeight, alphaRef, clamp01]⟩
  induction sigs generalizing s0 with
  | nil => intro st h; simp [scorerTrace] at h
  | cons e es ih =>
    intro st h
    simp only [scorerTrace, List.mem_cons] at h
    rcases h with h | h
    · subst h; exact ⟨clamp01_nonneg _, clamp01_le_one _⟩
    · exact ih _ _ h

/-- Witness for C3: the bound evaluated on a one-signal trace. -/
theorem score_bounds_witness :
    0 ≤ (scorerUpdate (fun _ => 1) (3/10) ⟨0, [], []⟩ ⟨.RAPID_WA_BURST, 1, 0⟩).score ∧
    (scorerUpdate (fun _ => 1) (3/10) ⟨0, [], []⟩ ⟨.RAPID_WA_BURST, 1, 0⟩).score ≤ 1 :=
  score_bounds.1 (fun _ => 1) (3/10) ⟨0, [], []⟩ [⟨.RAPID_WA_BURST, 1, 0⟩]
    (scorerUpdate (fun _ => 1) (3/10) ⟨0, [], []⟩ ⟨.RAPID_WA_BURST, 1, 0⟩)
    (by simp [scorerTrace])

/-- C4: escalation and trigger-reason logic compares coaching states and
intervention levels by their defined integer severity ranks
(NORMAL < WATCHING < WARNING < PROTECTIVE and
NONE < MONITOR < GENTLE < ACTIVE < URGENT) — WARNING ranks above WATCHING
and MONITOR below ACTIVE — never by lexicographic comparison of the symbolic
names, which would invert the WARNING / WATCHING pair; the client-side
intervention gate agrees with the rank order, firing exactly at rank ACTIVE
and above. -/
theorem severity_rank_order :
    (stateRank .NORMAL < stateRank .WATCHING ∧
     stateRank .WATCHING < stateRank .WARNING ∧
     stateRank .WARNING < stateRank .PROTECTIVE) ∧
    (levelRank .NONE < levelRank .MONITOR ∧
     levelRank .MONITOR < levelRank .GENTLE ∧
     levelRank .GENTLE < levelRank .ACTIVE ∧
     levelRank .ACTIVE < levelRank .URGENT) ∧
    (strLexLt (stateName .WARNING) (stateName .WATCHING) = true ∧
     triggerReasonOf .WATCHING .WARNING = "escalation") ∧
    (∀ l : InterventionLevel,
      shouldTriggerIntervention false (levelName l) = true ↔
        levelRank .ACTIVE ≤ levelRank l) ∧
    (∀ l : InterventionLevel, l ≠ .URGENT →
      levelRank (escalateOne l) = levelRank l + 1) := by
  refine ⟨by decide, by decide, ⟨by decide, rfl⟩, fun l => by cases l <;> decide,
    fun l hl => ?_⟩
  cases l
  case URGENT => exact absurd rfl hl
  all_goals decide

/-- Witness for C4: the gate fires at level ACTIVE and the MONITOR level
escalates one rank to GENTLE. -/
theorem severity_rank_order_witness :
    shouldTriggerIntervention false (levelName .ACTIVE) = true ∧
    levelRank (escalateOne .MONITOR) = levelRank .MONITOR + 1 :=
  ⟨(severity_rank_order.2.2.2.1 .ACTIVE).mpr (by decide),
   severity_rank_order.2.2.2.2 .MONITOR (by decide)⟩

/-- C6: high behavioral burnout combined with positive self-reported
sentiment classifies as MASKING, and whenever the alignment is MASKING the
intervention level returned by `select` is at least ACTIVE by severity rank,
whatever the coaching state, score, and session. -/
theorem masking_forces_active (session : CoachSession) (state : CoachState)
    (score : ℚ) (alignment : AlignmentLabel) (now : ℕ) :
    classifyAlignment true .positive = .MASKING ∧
    (alignment = .MASKING →
      levelRank .ACTIVE ≤ levelRank (select session state score alignment now).1.level) := by
  refine ⟨rfl, fun h => ?_⟩
  subst h
  rw [select_level]
  simp only [computeLevel, if_pos rfl]
  exact levelRank_levelMax_right _ _

/-- Witness for C6: MASKING at score 0.72 in state WARNING selects at least
ACTIVE. -/
theorem masking_forces_active_witness :
    levelRank .ACTIVE ≤
      levelRank (select sessionExample .WARNING (72/100) .MASKING 10).1.level :=
  (masking_forces_active sessionExample .WARNING (72/100) .MASKING 10).2 rfl

/-- C5: when the level selected by a first call to `select` carries a
configured (positive) cooldown, a second call within that cooldown window
returns the same intervention level and at most one of the two calls yields a
message — the suppressed call returns an absent message, which is a valid
non-error outcome; and the extension-side handler
`CoachPresenter.handleIntervention`, given an absent message at any level,
performs no UI action. -/
theorem cooldown_idempotence :
    (∀ (session : CoachSession) (state : CoachState) (score : ℚ)
       (alignment : AlignmentLabel) (t1 t2 : ℕ),
      0 < cooldownSeconds ((select session state score alignment t1).1.level) →
      t2 < t1 + cooldownSeconds ((select session state score alignment t1).1.level) →
      ((select (select session state score alignment t1).2 state score alignment t2).1.level
          = (select session state score alignment t1).1.level ∧
       ((select session state score alignment t1).1.message = none ∨
        (select (select session state score alignment t1).2 state score alignment t2).1.message
          = none))) ∧
    (∀ lvl : String, handleIntervention lvl none = .noAction) := by
  refine ⟨fun session state score alignment t1 t2 h0 h2 => ?_, fun lvl => rfl⟩
  rw [select_level] at h0 h2
  constructor
  · rw [select_level, select_level, select_failures_unchanged]
  · by_cases hA : messageAllowed
        (computeLevel state score alignment session.failures_since_last_message)
        (lookupLastAt session.last_intervention_at state) t1 = true
    · right
      obtain ⟨hm1, hli⟩ := select_emitted session state score alignment t1 hA
      have hlookup : lookupLastAt ((state, t1) :: session.last_intervention_at) state
          = some t1 := by
        simp [lookupLastAt]
      refine (select_suppressed _ state score alignment t2 ?_).1
      rw [select_failures_unchanged, hli, hlookup]
      exact messageAllowed_within_cooldown _ t1 t2 h0 h2
    · left
      exact (select_suppressed session state score alignment t1 (by simpa using hA)).1

/-- Witness for C5: two MONITOR-level calls sixty seconds apart on a fresh
session agree on the level and the second yields no message. -/
theorem cooldown_idempotence_witness :
    (select (select (freshSession "alice") .WATCHING (45/100) .GENUINE_GOOD 0).2
        .WATCHING (45/100) .GENUINE_GOOD 60).1.level
      = (select (freshSession "alice") .WATCHING (45/100) .GENUINE_GOOD 0).1.level ∧
    ((select (freshSession "alice") .WATCHING (45/100) .GENUINE_GOOD 0).1.message = none ∨
     (select (select (freshSession "alice") .WATCHING (45/100) .GENUINE_GOOD 0).2
        .WATCHING (45/100) .GENUINE_GOOD 60).1.message = none) :=
  cooldown_idempotence.1 (freshSession "alice") .WATCHING (45/100) .GENUINE_GOOD 0 60
    (by decide) (by decide)

/-- C7: starting from PROTECTIVE, the machine enters RECOVERY only if the
observation list contains at least three consecutive scores below 0.40 — so a
single dip below 0.40 amid otherwise elevated observations never triggers the
transition — while escalations are never delayed by hysteresis: each upward
transition fires on a single observation crossing its threshold, regardless
of the hysteresis counter. -/
theorem protective_recovery_hysteresis :
    (∀ scores : List ℚ, reachesRecovery ⟨.PROTECTIVE, 0⟩ scores = true →
      threeConsecBelow scores = true) ∧
    (∀ scores : List ℚ, threeConsecBelow scores = false →
      reachesRecovery ⟨.PROTECTIVE, 0⟩ scores = false) ∧
    (∀ (bc : ℕ) (q : ℚ),
      (q > 3/10 → (stepMachine ⟨.NORMAL, bc⟩ q).state = .WATCHING) ∧
      (q > 1/2 → (stepMachine ⟨.WATCHING, bc⟩ q).state = .WARNING) ∧
      (q > 13/20 → (stepMachine ⟨.WARNING, bc⟩ q).state = .PROTECTIVE)) := by
  have main : ∀ scores : List ℚ, reachesRecovery ⟨.PROTECTIVE, 0⟩ scores = true →
      threeConsecBelow scores = true := by
    intro scores h
    rcases recovery_entry_requires_streak scores ⟨.PROTECTIVE, 0⟩ h with h1 | ⟨_, h3⟩ | h4
    · exact absurd h1 (by simp)
    · exact firstBelow_three scores h3
    · exact h4
  refine ⟨main, fun scores hf => ?_, fun bc q => ⟨fun h => ?_, fun h => ?_, fun h => ?_⟩⟩
  · cases hr : reachesRecovery ⟨.PROTECTIVE, 0⟩ scores with
    | false => rfl
    | true => rw [main scores hr] at hf; cases hf
  · rw [stepMachine]; rw [if_pos h]
  · rw [stepMachine]; rw [if_pos h]
  · rw [stepMachine]; rw [if_pos h]

/-- Witness for C7: a trace with two isolated dips below 0.40 never reaches
RECOVERY, while three consecutive sub-threshold samples do complete the
PROTECTIVE streak, and a WARNING state escalates at 0.7. -/
theorem protective_recovery_hysteresis_witness :
    reachesRecovery ⟨.PROTECTIVE, 0⟩ [(1:ℚ)/2, 7/20, 1/2, 7/20, 1/2] = false ∧
    (stepMachine ⟨.WARNING, 0⟩ (7/10)).state = .PROTECTIVE :=
  ⟨protective_recovery_hysteresis.2.1 _ (by norm_num [threeConsecBelow]),
   (protective_recovery_hysteresis.2.2 0 (7/10)).2.2 (by norm_num)⟩

end Idolcode
